import Mathlib

/-!
The page script `script.js` of space-misson.

A shallow embedding of the page logic: the feature router (`showFeature`), the ISS tracker
(`getDistance`, `initISS`, `updateISS`, `showISSAlert`) and the solar chart with its CSV
handler (`initSolar`, the `complete` callback).

Numbers that the script computes with trigonometry are real numbers here; the values read
from a CSV file are exact rationals.  One poll tick is one atomic step: the response of the
fetch (or its failure, with the clock values read by the fallback) is the input of the step.
-/

namespace SpaceMission

/-! ## JavaScript values used by the page -/

/-- A JavaScript number as far as the page needs it: `NaN`, the two infinities, or a finite
double, given by its exact rational value (the sign of zero is not represented). -/
inductive JsNumber where
  | nan
  | posInf
  | negInf
  | fin (q : ℚ)
  deriving DecidableEq, Repr

/-- Unary minus on numbers. -/
def JsNumber.neg : JsNumber → JsNumber
  | .nan => .nan
  | .posInf => .negInf
  | .negInf => .posInf
  | .fin q => .fin (-q)

/-- Code points skipped by `parseFloat` before the literal (`StrWhiteSpaceChar`). -/
def isStrWhiteSpaceChar (c : Char) : Bool :=
  c.toNat ∈ [0x9, 0xA, 0xB, 0xC, 0xD, 0x20, 0xA0, 0x1680, 0x2028, 0x2029, 0x202F, 0x205F,
    0x3000, 0xFEFF] || (0x2000 ≤ c.toNat && c.toNat ≤ 0x200A)

/-- Value of a run of decimal digits. -/
def digitsValue (ds : List Char) : ℕ :=
  ds.foldl (fun n c => 10 * n + (c.toNat - '0'.toNat)) 0

/-- The `ExponentPart` at the head of the input, 0 when there is none or it is malformed. -/
def exponentPart : List Char → ℤ
  | c :: rest =>
    if c = 'e' ∨ c = 'E' then
      match rest with
      | '-' :: r =>
        Int.neg (digitsValue (r.takeWhile Char.isDigit))
      | '+' :: r => (digitsValue (r.takeWhile Char.isDigit) : ℤ)
      | r => (digitsValue (r.takeWhile Char.isDigit) : ℤ)
    else 0
  | [] => 0

/-- Halvings of `n` needed to get below 2, at most `fuel` of them. -/
def halvings : ℕ → ℕ → ℕ
  | 0, _ => 0
  | fuel + 1, n => if n < 2 then 0 else halvings fuel (n / 2) + 1

/-- The exponent `e` with `2 ^ e ≤ q < 2 ^ (e + 1)`, for a positive `q`. -/
def binaryExponent (q : ℚ) : ℤ :=
  let e : ℤ := (halvings q.num.natAbs q.num.natAbs : ℤ) - (halvings q.den q.den : ℤ)
  if (2 : ℚ) ^ e ≤ q then e else e - 1

/-- The integer nearest to a non-negative `q`, the even one of the two when `q` lies half
way. -/
def roundHalfEven (q : ℚ) : ℤ :=
  let f := ⌊q⌋
  if q - f < 1 / 2 then f
  else if 1 / 2 < q - f then f + 1
  else if f % 2 = 0 then f else f + 1

/-- The Number value of a non-negative rational: the nearest double (53 significant bits,
least exponent -1022, ties to even), or `Infinity` when that is out of range. -/
def numberValue (q : ℚ) : JsNumber :=
  if q = 0 then .fin 0
  else
    let ulp : ℚ := (2 : ℚ) ^ (max (binaryExponent q) (-1022) - 52)
    let v : ℚ := (roundHalfEven (q / ulp) : ℚ) * ulp
    if (2 : ℚ) ^ (1024 : ℤ) ≤ v then .posInf else .fin v

/-- The longest `StrUnsignedDecimalLiteral` at the head of the input, as a number. -/
def unsignedLiteral (cs : List Char) : Option JsNumber :=
  match cs with
  | 'I' :: 'n' :: 'f' :: 'i' :: 'n' :: 'i' :: 't' :: 'y' :: _ => some .posInf
  | _ =>
    let ip := cs.takeWhile Char.isDigit
    let r1 := cs.dropWhile Char.isDigit
    let fp := match r1 with
      | '.' :: r => r.takeWhile Char.isDigit
      | _ => []
    let r2 := match r1 with
      | '.' :: r => r.dropWhile Char.isDigit
      | _ => r1
    if ip = [] ∧ fp = [] then none
    else
      let m : ℚ := (digitsValue (ip ++ fp) : ℚ) / (10 : ℚ) ^ fp.length
      some (numberValue (m * (10 : ℚ) ^ exponentPart r2))

/-- The built-in `parseFloat` applied to a string: white space is skipped, then the longest
decimal literal is read and rounded to a double; `NaN` when no literal starts there. -/
def parseFloat (s : String) : JsNumber :=
  match s.data.dropWhile isStrWhiteSpaceChar with
  | '-' :: r => ((unsignedLiteral r).map JsNumber.neg).getD .nan
  | '+' :: r => (unsignedLiteral r).getD .nan
  | r => (unsignedLiteral r).getD .nan

/-- The text that `parseFloat` reads its literal from: the input after leading white space
and one optional sign. -/
def literalStart (s : String) : List Char :=
  match s.data.dropWhile isStrWhiteSpaceChar with
  | '-' :: r => r
  | '+' :: r => r
  | r => r

/-- The text begins with a `StrUnsignedDecimalLiteral`: with `Infinity`, with a digit, or
with a point followed by a digit. -/
def StartsNumeric (cs : List Char) : Prop :=
  (∃ t, cs = 'I' :: 'n' :: 'f' :: 'i' :: 'n' :: 'i' :: 't' :: 'y' :: t) ∨
    (∃ c t, cs = c :: t ∧ c.isDigit = true) ∨
    (∃ c t, cs = '.' :: c :: t ∧ c.isDigit = true)

/-- The built-in `String.prototype.toUpperCase` for text whose letters are ASCII: the
letters `a` to `z` are mapped and every other code point is kept, so letters outside ASCII,
which the built-in also maps, are outside this model. -/
def toUpperCase (s : String) : String := ⟨s.data.map Char.toUpper⟩

/-- The built-in `String.prototype.replace` with a string pattern and a replacement without
`$`: only the first occurrence of the pattern is replaced. -/
def replaceChars (pat rep : List Char) : List Char → List Char
  | [] => if pat = [] then rep else []
  | c :: cs =>
    if (c :: cs).take pat.length = pat then rep ++ (c :: cs).drop pat.length
    else c :: replaceChars pat rep cs

/-- The method `replace` on strings, through `replaceChars`. -/
def replace (s pat rep : String) : String := ⟨replaceChars pat.data rep.data s.data⟩


/-! ## Solar chart and the CSV handler (lines 173-219) -/

/-- One parsed CSV row (`header: true`): the fields the handler reads; `none` is `undefined`. -/
structure Row where
  date : Option String
  production : Option String
  deriving DecidableEq, Repr

/-- The bound data of the chart widget, with the number of `update()` redraws so far. -/
structure Chart where
  labels : List (Option String)
  data : List JsNumber
  updates : ℕ
  deriving DecidableEq, Repr

/-- The chart built by `initSolar` (lines 179-200). -/
def defaultChart : Chart :=
  { labels := ["Day -6", "Day -5", "Day -4", "Day -3", "Day -2", "Day -1", "Today"].map some
    data := [18, 20, 22, 19, 21, 23, 24].map (fun n : ℕ => JsNumber.fin n)
    updates := 0 }

/-- The argument `r.production || 0` after the `ToString` that `parseFloat` applies: an
`undefined` or empty field is falsy, so `0` (printed `"0"`) is taken instead. -/
def productionOrZero : Option String → String
  | none => "0"
  | some s => if s = "" then "0" else s

/-- The text of the notification at line 212. -/
def emptyCsvMessage : String :=
  "CSV looks empty or incorrect. Expect columns: date,production"

/-- Result of the `complete` callback: the chart afterwards and the `alert` shown, if any. -/
structure CompleteResult where
  chart : Chart
  alert : Option String
  deriving DecidableEq, Repr

/-- The `complete` callback of `Papa.parse` (lines 208-216). -/
def complete (solarChart : Chart) (rows : List Row) : CompleteResult :=
  let newLabels := rows.map (fun r => r.date)
  let newData := rows.map (fun r => parseFloat (productionOrZero r.production))
  if newLabels.length = 0 then
    { chart := solarChart, alert := some emptyCsvMessage }
  else
    { chart := { labels := newLabels, data := newData, updates := solarChart.updates + 1 }
      alert := none }


/-! ## Distance (lines 74-84) -/

/-- The built-in `Math.atan2 (y, x)` on real numbers: the angle of the point `(x, y)`. -/
noncomputable def atan2 (y x : ℝ) : ℝ := Complex.arg ⟨x, y⟩

/-- The constant `a` of `getDistance` (lines 76-82), in exact real arithmetic.  The script
computes it in doubles, where each operation is rounded; the rounding is not part of this
definition. -/
noncomputable def haversineTerm (lat1 lon1 lat2 lon2 : ℝ) : ℝ :=
  let dLat := (lat2 - lat1) * Real.pi / 180
  let dLon := (lon2 - lon1) * Real.pi / 180
  Real.sin (dLat / 2) ^ 2 +
    Real.cos (lat1 * Real.pi / 180) *
    Real.cos (lat2 * Real.pi / 180) *
    Real.sin (dLon / 2) ^ 2

/-- The function `getDistance` (lines 74-84), in exact real arithmetic: the value the
formula denotes, without the rounding of doubles (see `distanceOfTerm` for line 83 on a
rounded `a`). -/
noncomputable def getDistance (lat1 lon1 lat2 lon2 : ℝ) : ℝ :=
  let R : ℝ := 6371
  let a := haversineTerm lat1 lon1 lat2 lon2
  R * 2 * atan2 (Real.sqrt a) (Real.sqrt (1 - a))

/-- Line 83 for a given value of the constant `a`, with `NaN` written `none`: `Math.sqrt`
of a negative argument is `NaN`, and `Math.atan2` and the two products pass `NaN` on. -/
noncomputable def distanceOfTerm (a : ℝ) : Option ℝ :=
  if a < 0 ∨ 1 - a < 0 then none
  else some (6371 * 2 * atan2 (Real.sqrt a) (Real.sqrt (1 - a)))

/-! ## Demo position (lines 165-166) -/

/-- The remainder operator `%` for a non-zero divisor: the quotient is truncated towards
zero, so the result has the sign of the dividend. -/
def jsRem {α : Type} [LinearOrderedField α] [FloorRing α] (x y : α) : α :=
  x - y * ((if 0 ≤ x / y then ⌊x / y⌋ else ⌈x / y⌉ : ℤ) : α)

/-- The constant `demoLat` (line 165) for the clock value `now` read by `Date.now()`. -/
noncomputable def demoLat (now : ℤ) : ℝ := Real.sin ((now : ℝ) / 30000) * 20

/-- The constant `demoLon` (line 166) for the clock value `now` read by `Date.now()`. -/
noncomputable def demoLon (now : ℤ) : ℝ := jsRem ((now : ℝ) / 100000) 360 - 180

/-! ## Page state -/

/-- The three `.feature` sections of the page. -/
inductive Feature where
  | issSection
  | solarSection
  | placeholder
  deriving DecidableEq, Repr

/-- Colour of the line between the viewer and the ISS. -/
inductive LineColor where
  | blue
  | red
  deriving DecidableEq, Repr

/-- The polyline `lineToISS`: its two end points and its colour. -/
structure Polyline where
  viewer : ℝ × ℝ
  iss : ℝ × ℝ
  color : LineColor

/-- The view of the map widget. -/
structure MapView where
  center : ℝ × ℝ
  zoom : ℕ

/-- Text of the element `issInfo`, before formatting of the numbers. -/
inductive Readout where
  | live (lat lon alt vel : ℝ)
  | demo (lat lon : ℝ)

/-- The variables of the script (lines 39-41 and 173), the parts of the document it writes,
and counts of the widgets and registrations it has created. -/
structure Page where
  /-- Whether `navigator.geolocation` exists in this browser. -/
  geolocation : Bool
  /-- The section without the class `hidden`. -/
  shown : Option Feature
  placeholderTitle : String
  issInfo : Option Readout
  map : Option MapView
  issMarker : Option (ℝ × ℝ)
  userMarker : Option (ℝ × ℝ)
  lineToISS : Option Polyline
  issInterval : Option ℕ
  userLat : Option ℝ
  userLon : Option ℝ
  issNear : Bool
  solarChart : Option Chart
  solarInitialized : Bool
  /-- Calls of `L.map`. -/
  mapsCreated : ℕ
  /-- Circle markers created for the ISS. -/
  issMarkersCreated : ℕ
  /-- Calls of `getCurrentPosition`. -/
  geoRequests : ℕ
  /-- Calls of `setInterval (updateISS, 5000)`. -/
  pollIntervals : ℕ
  /-- Direct calls of `updateISS` made by `initISS`. -/
  immediateTicks : ℕ
  /-- Calls of `new Chart`. -/
  chartsCreated : ℕ
  /-- Listeners registered on `csvFile`. -/
  csvListeners : ℕ
  /-- Banners appended by `showISSAlert`. -/
  banners : ℕ

/-- The page when the script is loaded. -/
noncomputable def Page.initial (geolocation : Bool) : Page :=
  { geolocation := geolocation
    shown := none
    placeholderTitle := ""
    issInfo := none
    map := none
    issMarker := none
    userMarker := none
    lineToISS := none
    issInterval := none
    userLat := none
    userLon := none
    issNear := false
    solarChart := none
    solarInitialized := false
    mapsCreated := 0
    issMarkersCreated := 0
    geoRequests := 0
    pollIntervals := 0
    immediateTicks := 0
    chartsCreated := 0
    csvListeners := 0
    banners := 0 }

/-- The function `showISSAlert` (lines 43-72) up to the moment it returns: the banner is
appended and the map, when there is one, is centred on the ISS at zoom 6. -/
def showISSAlert (p : Page) (lat lon : ℝ) : Page :=
  { p with
    banners := p.banners + 1
    map := p.map.map (fun _ => { center := (lat, lon), zoom := 6 }) }

/-- The function `initISS` (lines 86-122). -/
noncomputable def initISS (p : Page) : Page :=
  if p.map.isNone then
    { p with
      map := some { center := (0, 0), zoom := 2 }
      mapsCreated := p.mapsCreated + 1
      issMarker := some (0, 0)
      issMarkersCreated := p.issMarkersCreated + 1
      geoRequests := if p.geolocation then p.geoRequests + 1 else p.geoRequests
      immediateTicks := p.immediateTicks + 1
      issInterval := some 5000
      pollIntervals := p.pollIntervals + 1 }
  else p

/-- The success callback of `getCurrentPosition` (lines 102-114). -/
def onPosition (p : Page) (latitude longitude : ℝ) : Page :=
  { p with
    userLat := some latitude
    userLon := some longitude
    userMarker := some (latitude, longitude) }

/-- The fields of the response body that `updateISS` reads (lines 130-133), all numbers. -/
structure IssData where
  latitude : ℝ
  longitude : ℝ
  altitude : ℝ
  velocity : ℝ

/-- What the `fetch` of one tick delivers: the body of a successful response, or a failure
(rejected request, response that is not ok, body that is not JSON), with the two values
that `Date.now()` then returns at lines 165 and 166. -/
inductive Fetch where
  | ok (data : IssData)
  | failed (now1 now2 : ℤ)

/-- Outcome of one tick: the page afterwards, the constant `distance` when line 141 ran,
and the arguments of `showISSAlert` when line 154 ran. -/
structure TickResult where
  page : Page
  distance : Option ℝ
  alert : Option (ℝ × ℝ)

/-- The function `updateISS` (lines 124-170), called after `initISS` has created the map
and the marker. -/
noncomputable def updateISS (p : Page) : Fetch → TickResult
  | .ok data =>
    let lat := data.latitude
    let lon := data.longitude
    let alt := data.altitude
    let vel := data.velocity
    let p1 : Page :=
      { p with
        issMarker := some (lat, lon)
        map := p.map.map (fun m => { m with center := (lat, lon) })
        issInfo := some (.live lat lon alt vel) }
    match p1.userLat, p1.userLon with
    | some userLat, some userLon =>
      let distance := getDistance userLat userLon lat lon
      let p2 : Page :=
        { p1 with
          lineToISS := some
            { viewer := (userLat, userLon)
              iss := (lat, lon)
              color := match p1.lineToISS with
                | none => .blue
                | some l => l.color } }
      if distance < 1000 then
        let p3 : Page := { p2 with lineToISS := p2.lineToISS.map ({ · with color := .red }) }
        if !p3.issNear then
          { page := { showISSAlert p3 lat lon with issNear := true }
            distance := some distance
            alert := some (lat, lon) }
        else
          { page := p3, distance := some distance, alert := none }
      else
        { page :=
            { p2 with
              lineToISS := p2.lineToISS.map ({ · with color := .blue })
              issNear := false }
          distance := some distance
          alert := none }
    | _, _ => { page := p1, distance := none, alert := none }
  | .failed now1 now2 =>
    { page :=
        { p with
          issMarker := some (demoLat now1, demoLon now2)
          issInfo := some (.demo (demoLat now1) (demoLon now2)) }
      distance := none
      alert := none }

/-- The function `initSolar` (lines 174-219), up to the registration of the listener. -/
def initSolar (p : Page) : Page :=
  if p.solarInitialized then p
  else
    { p with
      solarInitialized := true
      solarChart := some defaultChart
      chartsCreated := p.chartsCreated + 1
      csvListeners := p.csvListeners + 1 }

/-- The function `showFeature` (lines 24-36). -/
noncomputable def showFeature (p : Page) (name : String) : Page :=
  if name = "iss" then
    initISS { p with shown := some .issSection }
  else if name = "solar" then
    initSolar { p with shown := some .solarSection }
  else
    { p with
      shown := some .placeholder
      placeholderTitle := replace (toUpperCase name) "-" " " }

/-- What can happen to the tracker between two moments: a poll tick runs, or the
geolocation request answers. -/
inductive Event where
  | tick (r : Fetch)
  | position (latitude longitude : ℝ)

/-- One event, as a tick outcome (a position answer computes no distance and shows no
alert). -/
noncomputable def step (p : Page) : Event → TickResult
  | .tick r => updateISS p r
  | .position latitude longitude =>
    { page := onPosition p latitude longitude, distance := none, alert := none }

/-- The outcomes of a sequence of events, each run on the page the previous one left. -/
noncomputable def trace (p : Page) : List Event → List TickResult
  | [] => []
  | e :: es => step p e :: trace (step p e).page es

/-- The page after a sequence of events. -/
noncomputable def runEvents (p : Page) (es : List Event) : Page :=
  es.foldl (fun q e => (step q e).page) p

/-- A run of successful ticks, one per response body. -/
def okTicks (fs : List IssData) : List Event :=
  fs.map (fun data => Event.tick (Fetch.ok data))

/-- The distances from the viewer at `(userLat, userLon)` to the reported positions. -/
noncomputable def distancesFrom (userLat userLon : ℝ) (fs : List IssData) : List ℝ :=
  fs.map (fun data => getDistance userLat userLon data.latitude data.longitude)

/-- For each outcome, whether `showISSAlert` was called. -/
def alertFlags (tr : List TickResult) : List Bool :=
  tr.map (fun r => r.alert.isSome)

/-- Entry into the near range at index `i` of a sequence of distances, in the words of the
specification: the distance at `i` is below 1000 and the one before it, if any, is not. -/
def NearEntry (ds : List ℝ) (i : ℕ) : Prop :=
  ∃ d, ds[i]? = some d ∧ d < 1000 ∧ (i = 0 ∨ ∃ e, ds[i - 1]? = some e ∧ 1000 ≤ e)

/-- An ISS position on the equator at the given distance from the point `(0, 0)`. -/
noncomputable def equatorData (distance : ℝ) : IssData :=
  { latitude := 0
    longitude := distance * 180 / (6371 * Real.pi)
    altitude := 420
    velocity := 27600 }

/-- What can happen to the page as a whole: a card (or the Enter button) selects a feature,
or the tracker receives an event. -/
inductive Action where
  | select (name : String)
  | tracker (e : Event)

/-- One action on the page. -/
noncomputable def act (p : Page) : Action → Page
  | .select name => showFeature p name
  | .tracker e => (step p e).page

/-- The page after a sequence of actions. -/
noncomputable def runActions (p : Page) (as : List Action) : Page :=
  as.foldl act p

/-- The relation between the script variables and the creation counts that every action
keeps. -/
def InitInv (p : Page) : Prop :=
  (p.map.isSome = true ↔ p.mapsCreated = 1) ∧ p.mapsCreated ≤ 1 ∧
    p.pollIntervals = p.mapsCreated ∧ p.issMarkersCreated = p.mapsCreated ∧
    p.immediateTicks = p.mapsCreated ∧ p.geoRequests ≤ p.mapsCreated ∧
    (p.solarInitialized = true ↔ p.chartsCreated = 1) ∧ p.chartsCreated ≤ 1 ∧
    p.csvListeners = p.chartsCreated

/-- A chart that already shows the series of the single row `d1,5`. -/
def sameSeriesChart : Chart :=
  { labels := [some "d1"], data := [JsNumber.fin 5], updates := 1 }

/-- The single row `d1,5`. -/
def sameSeriesRows : List Row :=
  [{ date := some "d1", production := some "5" }]

/-- The rows of the CSV example of the specification. -/
def exampleRows : List Row :=
  [{ date := some "d1", production := some "5" },
    { date := some "d2", production := some "bad" }]

/-! ## Distance: auxiliary facts -/

theorem atan2_sin_cos {t : ℝ} (h1 : -Real.pi < t) (h2 : t ≤ Real.pi) :
    atan2 (Real.sin t) (Real.cos t) = t := by
  unfold atan2
  have : (⟨Real.cos t, Real.sin t⟩ : ℂ) = Complex.cos t + Complex.sin t * Complex.I := by
    apply Complex.ext <;> simp [Complex.cos_ofReal_re, Complex.sin_ofReal_re]
  rw [this]
  exact Complex.arg_cos_add_sin_mul_I ⟨h1, h2⟩

theorem cos_deg_nonneg {lat : ℝ} (h1 : -90 ≤ lat) (h2 : lat ≤ 90) :
    0 ≤ Real.cos (lat * Real.pi / 180) := by
  apply Real.cos_nonneg_of_neg_pi_div_two_le_of_le
  · have := Real.pi_pos; nlinarith
  · have := Real.pi_pos; nlinarith

theorem haversineTerm_nonneg {lat1 lat2 : ℝ} (lon1 lon2 : ℝ)
    (h1 : -90 ≤ lat1) (h1' : lat1 ≤ 90) (h2 : -90 ≤ lat2) (h2' : lat2 ≤ 90) :
    0 ≤ haversineTerm lat1 lon1 lat2 lon2 := by
  unfold haversineTerm
  have c1 := cos_deg_nonneg h1 h1'
  have c2 := cos_deg_nonneg h2 h2'
  positivity

theorem haversineTerm_le_one {lat1 lat2 : ℝ} (lon1 lon2 : ℝ)
    (h1 : -90 ≤ lat1) (h1' : lat1 ≤ 90) (h2 : -90 ≤ lat2) (h2' : lat2 ≤ 90) :
    haversineTerm lat1 lon1 lat2 lon2 ≤ 1 := by
  unfold haversineTerm
  have c1 := cos_deg_nonneg h1 h1'
  have c2 := cos_deg_nonneg h2 h2'
  set p := lat1 * Real.pi / 180 with hp
  set q := lat2 * Real.pi / 180 with hq
  have hd : (lat2 - lat1) * Real.pi / 180 / 2 = (q - p) / 2 := by rw [hp, hq]; ring
  simp only [hd]
  have hs : Real.sin ((lon2 - lon1) * Real.pi / 180 / 2) ^ 2 ≤ 1 := Real.sin_sq_le_one _
  have hhalf : Real.sin ((q - p) / 2) ^ 2 = 1 / 2 - Real.cos (q - p) / 2 := by
    have h1 := Real.cos_sq ((q - p) / 2)
    have h2 := Real.sin_sq_add_cos_sq ((q - p) / 2)
    have h3 : 2 * ((q - p) / 2) = q - p := by ring
    rw [h3] at h1
    linarith
  have hcos : Real.cos (q - p) = Real.cos q * Real.cos p + Real.sin q * Real.sin p := Real.cos_sub q p
  have hcos2 : Real.cos (q + p) = Real.cos q * Real.cos p - Real.sin q * Real.sin p := Real.cos_add q p
  have hle : Real.cos (q + p) ≤ 1 := Real.cos_le_one _
  have hprod : Real.cos p * Real.cos q * Real.sin ((lon2 - lon1) * Real.pi / 180 / 2) ^ 2
      ≤ Real.cos p * Real.cos q := by
    have : 0 ≤ Real.cos p * Real.cos q := mul_nonneg c1 c2
    nlinarith
  nlinarith

theorem haversineTerm_symm (lat1 lon1 lat2 lon2 : ℝ) :
    haversineTerm lat1 lon1 lat2 lon2 = haversineTerm lat2 lon2 lat1 lon1 := by
  unfold haversineTerm
  have e1 : (lat1 - lat2) * Real.pi / 180 / 2 = -((lat2 - lat1) * Real.pi / 180 / 2) := by ring
  have e2 : (lon1 - lon2) * Real.pi / 180 / 2 = -((lon2 - lon1) * Real.pi / 180 / 2) := by ring
  simp only [e1, e2, Real.sin_neg]
  ring

theorem getDistance_equator {x : ℝ} (h0 : 0 ≤ x) (h1 : x ≤ 180) :
    getDistance 0 0 0 x = 6371 * (x * Real.pi / 180) := by
  unfold getDistance haversineTerm
  set t := x * Real.pi / 180 / 2 with ht
  have hpi := Real.pi_pos
  have t0 : 0 ≤ t := by rw [ht]; positivity
  have t1 : t ≤ Real.pi / 2 := by rw [ht]; nlinarith
  have hs : 0 ≤ Real.sin t := Real.sin_nonneg_of_nonneg_of_le_pi t0 (by linarith)
  have hc : 0 ≤ Real.cos t := Real.cos_nonneg_of_neg_pi_div_two_le_of_le (by linarith) t1
  have ha : Real.sin ((0 - 0) * Real.pi / 180 / 2) ^ 2 +
      Real.cos (0 * Real.pi / 180) * Real.cos (0 * Real.pi / 180) *
        Real.sin ((x - 0) * Real.pi / 180 / 2) ^ 2 = Real.sin t ^ 2 := by
    simp [ht]
  simp only [ha]
  have h1a : 1 - Real.sin t ^ 2 = Real.cos t ^ 2 := by
    have := Real.sin_sq_add_cos_sq t; linarith
  rw [h1a, Real.sqrt_sq hs, Real.sqrt_sq hc, atan2_sin_cos (by linarith) (by linarith), ht]
  ring


theorem distanceOfTerm_haversineTerm {lat1 lat2 : ℝ} (lon1 lon2 : ℝ)
    (h1 : lat1 ∈ Set.Icc (-90 : ℝ) 90) (h2 : lat2 ∈ Set.Icc (-90 : ℝ) 90) :
    distanceOfTerm (haversineTerm lat1 lon1 lat2 lon2)
      = some (getDistance lat1 lon1 lat2 lon2) := by
  have h0 := haversineTerm_nonneg lon1 lon2 h1.1 h1.2 h2.1 h2.2
  have hle := haversineTerm_le_one lon1 lon2 h1.1 h1.2 h2.1 h2.2
  unfold distanceOfTerm getDistance
  rw [if_neg (by push_neg; exact ⟨h0, by linarith⟩)]

theorem jsRem_bounds {x y : ℝ} (hx : 0 ≤ x) (hy : 0 < y) :
    0 ≤ jsRem x y ∧ jsRem x y < y := by
  unfold jsRem
  have hq : 0 ≤ x / y := div_nonneg hx hy.le
  rw [if_pos hq]
  have h1 := Int.floor_le (x / y)
  have h2 := Int.lt_floor_add_one (x / y)
  have e : x = y * (x / y) := by field_simp
  constructor
  · nlinarith
  · nlinarith

/-! ## Ticks: auxiliary facts -/

theorem updateISS_ok_known (p : Page) (data : IssData) {userLat userLon : ℝ}
    (hlat : p.userLat = some userLat) (hlon : p.userLon = some userLon) :
    (updateISS p (.ok data)).distance
        = some (getDistance userLat userLon data.latitude data.longitude) ∧
      ((updateISS p (.ok data)).alert.isSome = true ↔
        getDistance userLat userLon data.latitude data.longitude < 1000 ∧ p.issNear = false) ∧
      ((updateISS p (.ok data)).page.issNear = true ↔
        getDistance userLat userLon data.latitude data.longitude < 1000) ∧
      (updateISS p (.ok data)).page.userLat = some userLat ∧
      (updateISS p (.ok data)).page.userLon = some userLon := by
  unfold updateISS
  simp only [hlat, hlon]
  by_cases hd : getDistance userLat userLon data.latitude data.longitude < 1000
  · cases hn : p.issNear <;> simp [hd, hn, showISSAlert, hlat, hlon]
  · simp [hd, hlat, hlon]

theorem updateISS_no_distance (p : Page) (r : Fetch)
    (h : (updateISS p r).distance = none) :
    (updateISS p r).alert = none ∧ (updateISS p r).page.issNear = p.issNear ∧
      (updateISS p r).page.userLat = p.userLat ∧ (updateISS p r).page.userLon = p.userLon := by
  cases r with
  | failed now1 now2 => simp [updateISS]
  | ok data =>
    cases hlat : p.userLat with
    | none => simp [updateISS, hlat]
    | some a =>
      cases hlon : p.userLon with
      | none => simp [updateISS, hlat, hlon]
      | some b =>
        have := (updateISS_ok_known p data hlat hlon).1
        rw [this] at h
        cases h

theorem updateISS_unknown (p : Page) (data : IssData)
    (h : p.userLat = none ∨ p.userLon = none) :
    (updateISS p (.ok data)).distance = none := by
  cases hlat : p.userLat with
  | none => simp [updateISS, hlat]
  | some a =>
    cases hlon : p.userLon with
    | none => simp [updateISS, hlat, hlon]
    | some b => rcases h with h | h <;> simp_all

theorem trace_append (p : Page) (es fs : List Event) :
    trace p (es ++ fs) = trace p es ++ trace (runEvents p es) fs := by
  induction es generalizing p with
  | nil => simp [trace, runEvents]
  | cons e es ih => simp [trace, runEvents, ih] 

theorem count_true_eq_card (l : List Bool) :
    l.count true = ((Finset.range l.length).filter (fun i => l[i]? = some true)).card := by
  induction l using List.reverseRecOn with
  | nil => simp
  | append_singleton l b ih =>
    have hcongr : (Finset.range l.length).filter (fun i => (l ++ [b])[i]? = some true)
        = (Finset.range l.length).filter (fun i => l[i]? = some true) := by
      apply Finset.filter_congr
      intro i hi
      rw [List.getElem?_append_left (Finset.mem_range.1 hi)]
    rw [List.count_append, List.length_append, List.length_singleton, Finset.range_succ,
      Finset.filter_insert, ih]
    have hlast : (l ++ [b])[l.length]? = some b := by simp
    rw [hlast, hcongr]
    cases b with
    | false => simp
    | true =>
      have hnot : l.length ∉ (Finset.range l.length).filter (fun i => l[i]? = some true) := by
        simp
      simp [Finset.card_insert_of_not_mem hnot]

theorem alertFlags_trace_okTicks_length (p : Page) (fs : List IssData) :
    (alertFlags (trace p (okTicks fs))).length = fs.length := by
  induction fs generalizing p with
  | nil => simp [alertFlags, okTicks, trace]
  | cons f fs ih =>
    have := ih (step p (.tick (.ok f))).page
    simp only [alertFlags, okTicks, trace, List.map_cons, List.length_cons] at this ⊢
    omega

theorem alert_at_index (p : Page) {userLat userLon : ℝ}
    (hlat : p.userLat = some userLat) (hlon : p.userLon = some userLon) (fs : List IssData)
    (i : ℕ) (d : ℝ) (hd : (distancesFrom userLat userLon fs)[i]? = some d) :
    (alertFlags (trace p (okTicks fs)))[i]? = some true ↔
      d < 1000 ∧ if i = 0 then p.issNear = false
        else ∃ e, (distancesFrom userLat userLon fs)[i - 1]? = some e ∧ 1000 ≤ e := by
  induction fs generalizing p i with
  | nil => simp [distancesFrom] at hd
  | cons f fs ih =>
    obtain ⟨h1, h2, h3, h4, h5⟩ := updateISS_ok_known p f hlat hlon
    cases i with
    | zero =>
      simp only [distancesFrom, List.map_cons, List.getElem?_cons_zero, Option.some.injEq] at hd
      subst hd
      simp only [alertFlags, okTicks, trace, step, List.map_cons, List.getElem?_cons_zero,
        Option.some.injEq, if_true]
      exact h2
    | succ k =>
      have hd' : (distancesFrom userLat userLon fs)[k]? = some d := by
        simpa [distancesFrom] using hd
      have := ih (updateISS p (.ok f)).page h4 h5 k hd'
      simp only [alertFlags, okTicks, trace, step, List.map_cons, List.getElem?_cons_succ]
      simp only [alertFlags, okTicks] at this
      rw [this]
      apply and_congr_right
      intro _
      cases k with
      | zero =>
        simp only [if_true, distancesFrom, List.map_cons, Nat.add_one_sub_one,
          List.getElem?_cons_zero, Option.some.injEq, exists_eq_left', Nat.succ_ne_zero,
          if_false, zero_add]
        rw [← not_lt, ← h3]
        simp
      | succ j =>
        simp [distancesFrom]

theorem getDistance_equatorData {d : ℝ} (h0 : 0 ≤ d) (h1 : d ≤ 19000) :
    getDistance 0 0 (equatorData d).latitude (equatorData d).longitude = d := by
  have hpi := Real.pi_pos
  have hpi3 := Real.pi_gt_three
  have hx0 : 0 ≤ d * 180 / (6371 * Real.pi) := by positivity
  have hx1 : d * 180 / (6371 * Real.pi) ≤ 180 := by
    rw [div_le_iff₀ (by positivity)]
    linarith
  simp only [equatorData]
  rw [getDistance_equator hx0 hx1]
  field_simp
  ring

theorem trace_okTicks_distance (p : Page) {userLat userLon : ℝ}
    (hlat : p.userLat = some userLat) (hlon : p.userLon = some userLon) (fs : List IssData) :
    (trace p (okTicks fs)).map (fun r => r.distance)
      = (distancesFrom userLat userLon fs).map some := by
  induction fs generalizing p with
  | nil => simp [okTicks, trace, distancesFrom]
  | cons f fs ih =>
    obtain ⟨h1, _, _, h4, h5⟩ := updateISS_ok_known p f hlat hlon
    have := ih (updateISS p (.ok f)).page h4 h5
    simp only [okTicks, distancesFrom] at this
    simp [okTicks, trace, step, distancesFrom, h1, this]

theorem step_distance_some (q : Page) (e : Event) (d : ℝ)
    (h : (step q e).distance = some d) : (step q e).page.issNear = true ↔ d < 1000 := by
  cases e with
  | position latitude longitude => simp [step] at h
  | tick r =>
    cases r with
    | failed now1 now2 => simp [step, updateISS] at h
    | ok data =>
      cases hlat : q.userLat with
      | none => simp [step, updateISS_unknown q data (Or.inl hlat)] at h
      | some a =>
        cases hlon : q.userLon with
        | none => simp [step, updateISS_unknown q data (Or.inr hlon)] at h
        | some b =>
          obtain ⟨h1, _, h3, _, _⟩ := updateISS_ok_known q data hlat hlon
          simp only [step] at h ⊢
          rw [h1] at h
          cases h
          exact h3

theorem step_distance_none (q : Page) (e : Event) (h : (step q e).distance = none) :
    (step q e).alert = none ∧ (step q e).page.issNear = q.issNear := by
  cases e with
  | position latitude longitude => simp [step, onPosition]
  | tick r =>
    have := updateISS_no_distance q r h
    exact ⟨this.1, this.2.1⟩

theorem runEvents_issNear (p : Page) (es : List Event) :
    ((runEvents p es).issNear = true ↔
      match ((trace p es).filterMap (fun r => r.distance)).getLast? with
      | some d => d < 1000
      | none => p.issNear = true) := by
  induction es using List.reverseRecOn with
  | nil => simp [runEvents, trace]
  | append_singleton es e ih =>
    have hrun : runEvents p (es ++ [e]) = (step (runEvents p es) e).page := by
      simp [runEvents]
    rw [trace_append, List.filterMap_append, hrun]
    cases hd : (step (runEvents p es) e).distance with
    | none =>
      have h1 : (trace (runEvents p es) [e]).filterMap (fun r => r.distance) = [] := by
        simp [trace, hd]
      rw [h1, List.append_nil, (step_distance_none _ e hd).2]
      exact ih
    | some d =>
      have h1 : (trace (runEvents p es) [e]).filterMap (fun r => r.distance) = [d] := by
        simp [trace, hd]
      rw [h1, List.getLast?_append]
      simp only [List.getLast?_singleton]
      simpa using step_distance_some _ e d hd

theorem ticks_without_viewer (p : Page) (h : p.userLat = none ∨ p.userLon = none)
    (rs : List Fetch) :
    (runEvents p (rs.map Event.tick)).issNear = p.issNear ∧
      ∀ r ∈ trace p (rs.map Event.tick), r.distance = none ∧ r.alert = none := by
  induction rs generalizing p with
  | nil => simp [runEvents, trace]
  | cons r rs ih =>
    have hnone : (updateISS p r).distance = none := by
      cases r with
      | failed now1 now2 => simp [updateISS]
      | ok data => exact updateISS_unknown p data h
    obtain ⟨ha, hn, hlat, hlon⟩ := updateISS_no_distance p r hnone
    have h' : (updateISS p r).page.userLat = none ∨ (updateISS p r).page.userLon = none := by
      rw [hlat, hlon]; exact h
    obtain ⟨i1, i2⟩ := ih (updateISS p r).page h'
    constructor
    · have : runEvents p ((r :: rs).map Event.tick)
          = runEvents (updateISS p r).page (rs.map Event.tick) := by
        simp [runEvents, step]
      rw [this, i1, hn]
    · intro x hx
      simp only [List.map_cons, trace, step, List.mem_cons] at hx
      rcases hx with hx | hx
      · subst hx; exact ⟨hnone, ha⟩
      · exact i2 x hx

theorem flag_of_iff {fl : List Bool} {i : ℕ} {P : Prop} (hi : i < fl.length)
    (h : fl[i]? = some true ↔ P) (b : Bool) (hb : b = true ↔ P) : fl[i]? = some b := by
  rw [List.getElem?_eq_getElem hi] at h ⊢
  cases hv : fl[i] <;> cases b <;> simp_all

/-! ## Ticks: the claims -/

/-- C1: with the viewer position known and `issNear` false at the start, over any run of
successful ticks the distance each tick computes is the distance from the viewer to the
reported position, `showISSAlert` is called at tick `i` exactly when that distance is below
1000 and the previous one (if any) is not, the number of alerts is the number of such
entries, and for the distances 1500, 900, 800, 1200, 500 the alert fires at ticks 1 and 4
only. -/
theorem alert_edge_triggered (p : Page) (userLat userLon : ℝ)
    (hlat : p.userLat = some userLat) (hlon : p.userLon = some userLon)
    (hnear : p.issNear = false) (fs : List IssData) :
    (trace p (okTicks fs)).map (fun r => r.distance)
        = (distancesFrom userLat userLon fs).map some ∧
      (∀ i, (alertFlags (trace p (okTicks fs)))[i]? = some true ↔
        NearEntry (distancesFrom userLat userLon fs) i) ∧
      (alertFlags (trace p (okTicks fs))).count true
        = Set.ncard {i | NearEntry (distancesFrom userLat userLon fs) i} ∧
      (distancesFrom userLat userLon fs = [1500, 900, 800, 1200, 500] →
        alertFlags (trace p (okTicks fs)) = [false, true, false, false, true]) := by
  have hlen := alertFlags_trace_okTicks_length p fs
  have hdlen : (distancesFrom userLat userLon fs).length = fs.length := by
    simp [distancesFrom]
  have hiff : ∀ i, (alertFlags (trace p (okTicks fs)))[i]? = some true ↔
      NearEntry (distancesFrom userLat userLon fs) i := by
    intro i
    by_cases hi : i < fs.length
    · have hget : (distancesFrom userLat userLon fs)[i]?
          = some ((distancesFrom userLat userLon fs)[i]) :=
        List.getElem?_eq_getElem (by omega)
      rw [alert_at_index p hlat hlon fs i _ hget]
      unfold NearEntry
      constructor
      · rintro ⟨h1, h2⟩
        refine ⟨_, hget, h1, ?_⟩
        by_cases h0 : i = 0
        · exact Or.inl h0
        · rw [if_neg h0] at h2; exact Or.inr h2
      · rintro ⟨d, h1, h2, h3⟩
        rw [hget] at h1
        cases h1
        refine ⟨h2, ?_⟩
        by_cases h0 : i = 0
        · rw [if_pos h0]; exact hnear
        · rw [if_neg h0]; exact h3.resolve_left h0
    · have h1 : (alertFlags (trace p (okTicks fs)))[i]? = none :=
        List.getElem?_eq_none (by omega)
      have h2 : (distancesFrom userLat userLon fs)[i]? = none :=
        List.getElem?_eq_none (by omega)
      unfold NearEntry
      simp [h1, h2]
  refine ⟨trace_okTicks_distance p hlat hlon fs, hiff, ?_, ?_⟩
  · rw [count_true_eq_card, ← Set.ncard_coe_Finset]
    congr 1
    ext i
    simp only [Finset.coe_filter, Finset.mem_range, Set.mem_setOf_eq]
    rw [hiff i]
    constructor
    · exact fun h => h.2
    · intro h
      refine ⟨?_, h⟩
      obtain ⟨d, hd, _⟩ := h
      have := (List.getElem?_eq_some_iff.1 hd).1
      omega
  · intro hds
    have h5 : (alertFlags (trace p (okTicks fs))).length = 5 := by
      rw [hlen, ← hdlen, hds]; rfl
    have e0 := flag_of_iff (i := 0) (by omega) (hiff 0) false (by
      unfold NearEntry; rw [hds]; norm_num)
    have e1 := flag_of_iff (i := 1) (by omega) (hiff 1) true (by
      unfold NearEntry; rw [hds]; norm_num)
    have e2 := flag_of_iff (i := 2) (by omega) (hiff 2) false (by
      unfold NearEntry; rw [hds]; norm_num)
    have e3 := flag_of_iff (i := 3) (by omega) (hiff 3) false (by
      unfold NearEntry; rw [hds]; norm_num)
    have e4 := flag_of_iff (i := 4) (by omega) (hiff 4) true (by
      unfold NearEntry; rw [hds]; norm_num)
    apply List.ext_getElem?
    intro i
    rcases i with _ | _ | _ | _ | _ | i
    · exact e0
    · exact e1
    · exact e2
    · exact e3
    · exact e4
    · rw [List.getElem?_eq_none (by omega)]
      rfl

/-- Witness for C1: a viewer at `(0, 0)` and five ISS positions on the equator at the
distances 1500, 900, 800, 1200 and 500 km; the alert fires at ticks 1 and 4 only. -/
theorem alert_edge_triggered_witness :
    (onPosition (initISS (Page.initial true)) 0 0).issNear = false ∧
      alertFlags (trace (onPosition (initISS (Page.initial true)) 0 0)
        (okTicks [equatorData 1500, equatorData 900, equatorData 800, equatorData 1200,
          equatorData 500])) = [false, true, false, false, true] :=
  ⟨rfl, (alert_edge_triggered (onPosition (initISS (Page.initial true)) 0 0) 0 0 rfl rfl rfl
    [equatorData 1500, equatorData 900, equatorData 800, equatorData 1200,
      equatorData 500]).2.2.2 (by
        simp only [distancesFrom, List.map_cons, List.map_nil]
        rw [getDistance_equatorData (by norm_num) (by norm_num),
          getDistance_equatorData (by norm_num) (by norm_num),
          getDistance_equatorData (by norm_num) (by norm_num),
          getDistance_equatorData (by norm_num) (by norm_num),
          getDistance_equatorData (by norm_num) (by norm_num)])⟩

/-- C4: starting with `issNear` false, after any sequence of ticks and position answers
`issNear` is true exactly when a distance has been computed and the last one computed is
below 1000; an event that computes no distance leaves `issNear` as it was and shows no
alert; a failed tick and a tick without a viewer position compute none; so while the viewer
position is absent `issNear` stays false and no alert is shown. -/
theorem proximity_invariant (p : Page) (hnear : p.issNear = false) (es : List Event) :
    ((runEvents p es).issNear = true ↔
        ∃ d, ((trace p es).filterMap (fun r => r.distance)).getLast? = some d ∧ d < 1000) ∧
      (∀ (q : Page) (e : Event), (step q e).distance = none →
        (step q e).page.issNear = q.issNear ∧ (step q e).alert = none) ∧
      (∀ (q : Page) (now1 now2 : ℤ), (updateISS q (.failed now1 now2)).distance = none) ∧
      (∀ (q : Page) (data : IssData), q.userLat = none ∨ q.userLon = none →
        (updateISS q (.ok data)).distance = none) ∧
      (∀ rs : List Fetch, p.userLat = none ∨ p.userLon = none →
        (runEvents p (rs.map Event.tick)).issNear = false ∧
          ∀ r ∈ trace p (rs.map Event.tick), r.alert = none) := by
  refine ⟨?_, ?_, ?_, ?_, ?_⟩
  · rw [runEvents_issNear]
    cases hl : ((trace p es).filterMap (fun r => r.distance)).getLast? with
    | none => simp [hnear]
    | some d => simp
  · intro q e h
    exact ⟨(step_distance_none q e h).2, (step_distance_none q e h).1⟩
  · intro q now1 now2
    simp [updateISS]
  · intro q data h
    exact updateISS_unknown q data h
  · intro rs h
    obtain ⟨h1, h2⟩ := ticks_without_viewer p h rs
    exact ⟨by rw [h1, hnear], fun r hr => (h2 r hr).2⟩

/-- Witness for C4: the page after `initISS`, then a tick before the position is known, the
position answer, a successful tick and a failed tick. -/
theorem proximity_invariant_witness :
    (initISS (Page.initial true)).issNear = false ∧
      ((runEvents (initISS (Page.initial true))
          [.tick (.ok (equatorData 500)), .position 0 0, .tick (.ok (equatorData 500)),
            .tick (.failed 1700000000000 1700000000001)]).issNear = true ↔
        ∃ d, ((trace (initISS (Page.initial true))
          [.tick (.ok (equatorData 500)), .position 0 0, .tick (.ok (equatorData 500)),
            .tick (.failed 1700000000000 1700000000001)]).filterMap
              (fun r => r.distance)).getLast? = some d ∧ d < 1000) :=
  ⟨rfl, (proximity_invariant (initISS (Page.initial true)) rfl _).1⟩

/-! ## Section initialisation -/

theorem initISS_of_map (p : Page) (h : p.map.isSome = true) : initISS p = p := by
  unfold initISS
  cases hm : p.map with
  | none => simp [hm] at h
  | some m => simp

theorem initSolar_of_initialized (p : Page) (h : p.solarInitialized = true) :
    initSolar p = p := by
  unfold initSolar
  simp [h]

theorem step_static (p : Page) (e : Event) :
    ((step p e).page.map.isSome = p.map.isSome) ∧
      (step p e).page.solarInitialized = p.solarInitialized ∧
      (step p e).page.mapsCreated = p.mapsCreated ∧
      (step p e).page.pollIntervals = p.pollIntervals ∧
      (step p e).page.issMarkersCreated = p.issMarkersCreated ∧
      (step p e).page.immediateTicks = p.immediateTicks ∧
      (step p e).page.geoRequests = p.geoRequests ∧
      (step p e).page.chartsCreated = p.chartsCreated ∧
      (step p e).page.csvListeners = p.csvListeners := by
  cases e with
  | position latitude longitude => simp [step, onPosition]
  | tick r =>
    cases r with
    | failed now1 now2 => simp [step, updateISS]
    | ok data =>
      simp only [step, updateISS]
      cases p.userLat <;> cases p.userLon <;> try simp
      split_ifs <;> simp [showISSAlert]

theorem initISS_sets_map (p : Page) : (initISS p).map.isSome = true := by
  unfold initISS
  cases hm : p.map <;> simp [hm]

theorem initSolar_sets_flag (p : Page) : (initSolar p).solarInitialized = true := by
  unfold initSolar
  cases hs : p.solarInitialized <;> simp [hs]

theorem act_preserves_inv (p : Page) (a : Action) (h : InitInv p) : InitInv (act p a) := by
  obtain ⟨h1, h2, h3, h4, h5, h6, h7, h8, h9⟩ := h
  cases a with
  | tracker e =>
    obtain ⟨s1, s2, s3, s4, s5, s6, s7, s8, s9⟩ := step_static p e
    simp only [act, InitInv, s1, s2, s3, s4, s5, s6, s7, s8, s9]
    exact ⟨h1, h2, h3, h4, h5, h6, h7, h8, h9⟩
  | select name =>
    simp only [act, showFeature]
    by_cases hi : name = "iss"
    · rw [if_pos hi]
      unfold initISS
      cases hm : p.map with
      | some m =>
        simp only [Option.isNone_some, Bool.false_eq_true, if_false, InitInv]
        simp only [hm, Option.isSome_some, true_iff] at h1
        simp only [hm, Option.isSome_some, true_iff]
        exact ⟨h1, h2, h3, h4, h5, h6, h7, h8, h9⟩
      | none =>
        have h0 : p.mapsCreated = 0 := by
          simp only [hm, Option.isSome_none, Bool.false_eq_true, false_iff] at h1
          omega
        simp only [Option.isNone_none, if_true, InitInv, Option.isSome_some, true_iff]
        refine ⟨by omega, by omega, by omega, by omega, by omega, ?_, h7, h8, h9⟩
        split_ifs <;> omega
    · rw [if_neg hi]
      by_cases hs : name = "solar"
      · rw [if_pos hs]
        unfold initSolar
        cases hinit : p.solarInitialized with
        | true =>
          simp only [if_true, InitInv]
          simp only [hinit, true_iff] at h7
          simp only [hinit, true_iff]
          exact ⟨h1, h2, h3, h4, h5, h6, h7, h8, h9⟩
        | false =>
          have h0 : p.chartsCreated = 0 := by
            simp only [hinit, Bool.false_eq_true, false_iff] at h7
            omega
          simp only [Bool.false_eq_true, if_false, InitInv, true_iff]
          exact ⟨h1, h2, h3, h4, h5, h6, by omega, by omega, by omega⟩
      · rw [if_neg hs]
        exact ⟨h1, h2, h3, h4, h5, h6, h7, h8, h9⟩

theorem initial_inv (g : Bool) : InitInv (Page.initial g) := by
  simp [InitInv, Page.initial]

theorem runActions_inv (p : Page) (as : List Action) (h : InitInv p) :
    InitInv (runActions p as) := by
  induction as generalizing p with
  | nil => exact h
  | cons a as ih => exact ih (act p a) (act_preserves_inv p a h)

theorem act_keeps_map (p : Page) (a : Action) (h : p.map.isSome = true) :
    (act p a).map.isSome = true := by
  cases a with
  | tracker e => simp only [act]; rw [(step_static p e).1]; exact h
  | select name =>
    simp only [act, showFeature]
    split_ifs
    · exact initISS_sets_map _
    · unfold initSolar; split_ifs <;> exact h
    · exact h

theorem act_keeps_solar (p : Page) (a : Action) (h : p.solarInitialized = true) :
    (act p a).solarInitialized = true := by
  cases a with
  | tracker e => simp only [act]; rw [(step_static p e).2.1]; exact h
  | select name =>
    simp only [act, showFeature]
    split_ifs
    · unfold initISS; split_ifs <;> exact h
    · exact initSolar_sets_flag _
    · exact h

theorem runActions_keeps_map (p : Page) (as : List Action) (h : p.map.isSome = true) :
    (runActions p as).map.isSome = true := by
  induction as generalizing p with
  | nil => exact h
  | cons a as ih => exact ih (act p a) (act_keeps_map p a h)

theorem runActions_keeps_solar (p : Page) (as : List Action)
    (h : p.solarInitialized = true) : (runActions p as).solarInitialized = true := by
  induction as generalizing p with
  | nil => exact h
  | cons a as ih => exact ih (act p a) (act_keeps_solar p a h)

theorem runActions_select_iss (p : Page) (as : List Action)
    (h : Action.select "iss" ∈ as) : (runActions p as).map.isSome = true := by
  induction as generalizing p with
  | nil => simp at h
  | cons a as ih =>
    rcases List.mem_cons.1 h with h | h
    · subst h
      show (runActions (act p (Action.select "iss")) as).map.isSome = true
      apply runActions_keeps_map
      simp only [act, showFeature, if_true]
      exact initISS_sets_map _
    · exact ih (act p a) h

theorem runActions_select_solar (p : Page) (as : List Action)
    (h : Action.select "solar" ∈ as) : (runActions p as).solarInitialized = true := by
  induction as generalizing p with
  | nil => simp at h
  | cons a as ih =>
    rcases List.mem_cons.1 h with h | h
    · subst h
      show (runActions (act p (Action.select "solar")) as).solarInitialized = true
      apply runActions_keeps_solar
      have : ¬ ("solar" = "iss") := by decide
      simp only [act, showFeature, this, if_false, if_true]
      exact initSolar_sets_flag _
    · exact ih (act p a) h

/-- C9: once `initISS` has run (the map exists) another selection of the ISS section only
changes which section is shown: no map, marker, geolocation request, immediate tick or poll
interval is added; likewise for `initSolar`, the chart and the CSV listener.  From the page
as loaded, after any sequence of selections and tracker events there is at most one map,
one poll interval, one chart and one CSV listener, and exactly one as soon as the section
has been selected. -/
theorem section_init_idempotent (p : Page) (g : Bool) (as : List Action) :
    (initISS p).map.isSome = true ∧
      (p.map.isSome = true → showFeature p "iss" = { p with shown := some .issSection }) ∧
      showFeature (showFeature p "iss") "iss" = showFeature p "iss" ∧
      (initSolar p).solarInitialized = true ∧
      (p.solarInitialized = true →
        showFeature p "solar" = { p with shown := some .solarSection }) ∧
      showFeature (showFeature p "solar") "solar" = showFeature p "solar" ∧
      (∀ a, (p.map.isSome = true → (act p a).map.isSome = true) ∧
        (p.solarInitialized = true → (act p a).solarInitialized = true)) ∧
      ((runActions (Page.initial g) as).mapsCreated ≤ 1 ∧
        (runActions (Page.initial g) as).pollIntervals
          = (runActions (Page.initial g) as).mapsCreated ∧
        (runActions (Page.initial g) as).issMarkersCreated
          = (runActions (Page.initial g) as).mapsCreated ∧
        (runActions (Page.initial g) as).geoRequests
          ≤ (runActions (Page.initial g) as).mapsCreated ∧
        (Action.select "iss" ∈ as → (runActions (Page.initial g) as).mapsCreated = 1) ∧
        (runActions (Page.initial g) as).chartsCreated ≤ 1 ∧
        (runActions (Page.initial g) as).csvListeners
          = (runActions (Page.initial g) as).chartsCreated ∧
        (Action.select "solar" ∈ as →
          (runActions (Page.initial g) as).chartsCreated = 1)) := by
  have hne : ¬ ("solar" = "iss") := by decide
  obtain ⟨h1, h2, h3, h4, _, h6, h7, h8, h9⟩ := runActions_inv _ as (initial_inv g)
  refine ⟨initISS_sets_map p, ?_, ?_, initSolar_sets_flag p, ?_, ?_, ?_, ?_⟩
  · intro h
    simp only [showFeature, if_true]
    exact initISS_of_map _ h
  · simp only [showFeature, if_true]
    rw [initISS_of_map { initISS { p with shown := some .issSection } with
      shown := some .issSection } (initISS_sets_map _)]
    unfold initISS
    split_ifs <;> rfl
  · intro h
    simp only [showFeature, hne, if_false, if_true]
    exact initSolar_of_initialized _ h
  · simp only [showFeature, hne, if_false, if_true]
    rw [initSolar_of_initialized { initSolar { p with shown := some .solarSection } with
      shown := some .solarSection } (initSolar_sets_flag _)]
    unfold initSolar
    split_ifs <;> rfl
  · intro a
    exact ⟨act_keeps_map p a, act_keeps_solar p a⟩
  · exact ⟨h2, h3, h4, h6, fun h => h1.1 (runActions_select_iss _ as h), h8, h9,
      fun h => h7.1 (runActions_select_solar _ as h)⟩

/-! ## parseFloat: auxiliary facts -/

theorem numberValue_ne_nan (q : ℚ) : numberValue q ≠ .nan := by
  unfold numberValue
  simp only
  split_ifs <;> simp

theorem JsNumber.neg_eq_nan {x : JsNumber} : x.neg = .nan ↔ x = .nan := by
  cases x <;> simp [JsNumber.neg]

theorem unsignedLiteral_ne_nan (cs : List Char) : unsignedLiteral cs ≠ some .nan := by
  unfold unsignedLiteral
  split
  · simp
  · simp only
    split_ifs
    · simp
    · simp [numberValue_ne_nan]

theorem unsignedLiteral_eq_none_iff (cs : List Char) :
    unsignedLiteral cs = none ↔ ¬ StartsNumeric cs := by
  unfold unsignedLiteral StartsNumeric
  split
  · simp
  · rename_i hI
    have hI' : ¬ ∃ t, cs = 'I' :: 'n' :: 'f' :: 'i' :: 'n' :: 'i' :: 't' :: 'y' :: t := by
      rintro ⟨t, rfl⟩
      exact hI t rfl
    simp only [hI', false_or]
    cases cs with
    | nil => simp
    | cons c t =>
      by_cases hc : c.isDigit = true
      · simp [List.takeWhile_cons, hc]
      · have hd : ¬ (c.isDigit = true) := hc
        by_cases hp : c = '.'
        · subst hp
          cases t with
          | nil => simp [List.takeWhile_cons, List.dropWhile_cons, hc]
          | cons d t' =>
            by_cases hdd : d.isDigit = true
            · simp [List.takeWhile_cons, List.dropWhile_cons, hc, hdd]
            · simp [List.takeWhile_cons, List.dropWhile_cons, hc, hdd]
        · simp [List.takeWhile_cons, List.dropWhile_cons, hc, hp]

theorem getD_nan_iff (cs : List Char) :
    (unsignedLiteral cs).getD .nan = .nan ↔ unsignedLiteral cs = none := by
  have hne := unsignedLiteral_ne_nan cs
  cases h : unsignedLiteral cs with
  | none => simp
  | some x =>
    rw [h] at hne
    simpa using hne

theorem neg_getD_nan_iff (cs : List Char) :
    ((unsignedLiteral cs).map JsNumber.neg).getD .nan = .nan ↔ unsignedLiteral cs = none := by
  have hne := unsignedLiteral_ne_nan cs
  cases h : unsignedLiteral cs with
  | none => simp
  | some x =>
    rw [h] at hne
    simp only [Option.map_some', Option.getD_some, JsNumber.neg_eq_nan]
    simpa using hne

theorem parseFloat_eq_nan_iff (s : String) :
    parseFloat s = .nan ↔ ¬ StartsNumeric (literalStart s) := by
  rw [← unsignedLiteral_eq_none_iff]
  unfold parseFloat literalStart
  split
  · exact neg_getD_nan_iff _
  · exact getD_nan_iff _
  · exact getD_nan_iff _

theorem isDigit_bounds {c : Char} (h : c.isDigit = true) : 48 ≤ c.toNat ∧ c.toNat ≤ 57 := by
  simp only [Char.isDigit, Bool.and_eq_true, decide_eq_true_eq] at h
  exact ⟨h.1, h.2⟩

theorem isDigit_not_whiteSpace {c : Char} (h : c.isDigit = true) :
    isStrWhiteSpaceChar c = false := by
  obtain ⟨h1, h2⟩ := isDigit_bounds h
  simp only [isStrWhiteSpaceChar, Bool.or_eq_false_iff, decide_eq_false_iff_not,
    List.mem_cons, List.mem_singleton, Bool.and_eq_false_imp, decide_eq_true_eq]
  constructor
  · simp only [List.not_mem_nil, or_false]
    omega
  · omega

theorem parseFloat_digits (ds : List Char) (hne : ds ≠ [])
    (hd : ∀ c ∈ ds, c.isDigit = true) :
    parseFloat ⟨ds⟩ = numberValue (digitsValue ds) := by
  obtain ⟨c, t, rfl⟩ := List.exists_cons_of_ne_nil hne
  have hc : c.isDigit = true := hd c (List.mem_cons_self _ _)
  have hws : List.dropWhile isStrWhiteSpaceChar (c :: t) = c :: t := by
    simp [List.dropWhile_cons, isDigit_not_whiteSpace hc]
  have htake : List.takeWhile Char.isDigit (c :: t) = c :: t :=
    List.takeWhile_eq_self_iff.2 hd
  have hdrop : List.dropWhile Char.isDigit (c :: t) = [] :=
    List.dropWhile_eq_nil_iff.2 hd
  have hlit : unsignedLiteral (c :: t) = some (numberValue (digitsValue (c :: t))) := by
    unfold unsignedLiteral
    split
    · rename_i heq
      have : c = 'I' := by injection heq
      subst this
      simp [Char.isDigit] at hc
    · simp [htake, hdrop, exponentPart]
  unfold parseFloat
  simp only [hws]
  split
  · rename_i heq
    have : c = '-' := by injection heq
    subst this
    simp [Char.isDigit] at hc
  · rename_i heq
    have : c = '+' := by injection heq
    subst this
    simp [Char.isDigit] at hc
  · rw [hlit]; rfl

theorem parseFloat_productionOrZero (production : Option String) :
    parseFloat (productionOrZero production)
      = (match production with
          | none => JsNumber.fin 0
          | some s => if s = "" then JsNumber.fin 0 else parseFloat s) := by
  have hzero : parseFloat "0" = JsNumber.fin 0 := by decide!
  cases production with
  | none => simpa [productionOrZero] using hzero
  | some s =>
    by_cases hs : s = ""
    · simpa [productionOrZero, hs] using hzero
    · simp [productionOrZero, hs]

/-! ## Feature router and CSV handler: the claims -/

/-- C3: for the name `solar-flare-watch`, which is neither `iss` nor `solar`, `showFeature`
shows the placeholder with the title `SOLAR FLARE-WATCH`: only the first `-` has become a
space, so the title is not the name in upper case with every `-` replaced. -/
theorem showFeature_title_second_separator_kept (p : Page) :
    (showFeature p "solar-flare-watch").shown = some Feature.placeholder ∧
      (showFeature p "solar-flare-watch").placeholderTitle = "SOLAR FLARE-WATCH" ∧
      (showFeature p "solar-flare-watch").placeholderTitle ≠ "SOLAR FLARE WATCH" ∧
      (showFeature p "weather-alerts").placeholderTitle = "WEATHER ALERTS" := by
  have h1 : ¬ ("solar-flare-watch" = "iss") := by decide
  have h2 : ¬ ("solar-flare-watch" = "solar") := by decide
  have h3 : ¬ ("weather-alerts" = "iss") := by decide
  have h4 : ¬ ("weather-alerts" = "solar") := by decide
  have e1 : replace (toUpperCase "solar-flare-watch") "-" " " = "SOLAR FLARE-WATCH" := by
    decide
  have e2 : replace (toUpperCase "weather-alerts") "-" " " = "WEATHER ALERTS" := by decide
  simp only [showFeature, h1, h2, h3, h4, if_false, e1, e2]
  exact ⟨trivial, trivial, by decide, trivial⟩

/-- C2, as stated, fails: for the rows of the example the handler stores the values 5 and
`NaN`, not 5 and 0, because `parseFloat` receives the unparseable text itself. -/
theorem complete_unparseable_is_nan :
    (complete defaultChart exampleRows).chart.labels = [some "d1", some "d2"] ∧
      (complete defaultChart exampleRows).chart.data = [JsNumber.fin 5, JsNumber.nan] ∧
      (complete defaultChart exampleRows).chart.data ≠ [JsNumber.fin 5, JsNumber.fin 0] := by
  decide!

/-- C2, amended: for every non-empty list of parsed rows the handler replaces the chart
series with one label and one value per row in row order.  The label is the date of the
row.  The value is 0 when the production is missing or empty and `parseFloat` of the
production text otherwise; `parseFloat` gives `NaN` exactly for a text that, after leading
white space and an optional sign, does not begin with a digit, a point followed by a digit,
or `Infinity`, and gives the double nearest to its value for a text of decimal digits
(9007199254740992 for `9007199254740993`, `Infinity` for `1e400`).  For the two rows of
the example the labels are `d1`, `d2` and the values 5 and `NaN`. -/
theorem complete_replaces_series (solarChart : Chart) (rows : List Row) (h : rows ≠ []) :
    (complete solarChart rows).chart.labels = rows.map (fun r => r.date) ∧
      (complete solarChart rows).chart.data
        = rows.map (fun r =>
            match r.production with
            | none => JsNumber.fin 0
            | some s => if s = "" then JsNumber.fin 0 else parseFloat s) ∧
      (complete solarChart rows).chart.labels.length = rows.length ∧
      (complete solarChart rows).chart.data.length = rows.length ∧
      (complete solarChart rows).alert = none ∧
      (∀ s : String, parseFloat s = JsNumber.nan ↔ ¬ StartsNumeric (literalStart s)) ∧
      (∀ ds : List Char, ds ≠ [] → (∀ c ∈ ds, c.isDigit = true) →
        parseFloat ⟨ds⟩ = numberValue (digitsValue ds)) ∧
      parseFloat "9007199254740993" = JsNumber.fin 9007199254740992 ∧
      parseFloat "1e400" = JsNumber.posInf ∧
      (complete solarChart exampleRows).chart.labels = [some "d1", some "d2"] ∧
      (complete solarChart exampleRows).chart.data = [JsNumber.fin 5, JsNumber.nan] := by
  have hlen : ¬ ((rows.map (fun r => r.date)).length = 0) := by
    simpa using h
  have hex : ¬ ((exampleRows.map (fun r => r.date)).length = 0) := by decide
  refine ⟨?_, ?_, ?_, ?_, ?_, parseFloat_eq_nan_iff, parseFloat_digits, by decide!,
    by decide!, ?_, ?_⟩
  · simp only [complete, hlen, if_false]
  · simp only [complete, hlen, if_false]
    exact List.map_congr_left (fun r _ => parseFloat_productionOrZero r.production)
  · simp only [complete, hlen, if_false]
    exact List.length_map _ _
  · simp only [complete, hlen, if_false]
    exact List.length_map _ _
  · simp only [complete, hlen, if_false]
  · simp only [complete, hex, if_false]
    decide
  · simp only [complete, hex, if_false]
    decide!

/-- Witness for the amended C2: the rows of the example on the default chart. -/
theorem complete_replaces_series_witness :
    exampleRows ≠ [] ∧
      (complete defaultChart exampleRows).chart.labels = exampleRows.map (fun r => r.date) ∧
      (complete defaultChart exampleRows).chart.data = [JsNumber.fin 5, JsNumber.nan] :=
  ⟨by decide, (complete_replaces_series defaultChart exampleRows (by decide)).1,
    (complete_replaces_series defaultChart exampleRows (by decide)).2.2.2.2.2.2.2.2.2.2⟩

/-- C5, as stated, fails: on a chart that shows the label `d1` and the value 5, the single
row `d1,5` is a non-empty list of rows, yet labels and values after the load are what they
were before, so "the series changes if and only if the list is non-empty" does not hold. -/
theorem complete_same_rows_same_series :
    sameSeriesRows ≠ [] ∧
      (complete sameSeriesChart sameSeriesRows).chart.labels = sameSeriesChart.labels ∧
      (complete sameSeriesChart sameSeriesRows).chart.data = sameSeriesChart.data ∧
      ¬ (((complete sameSeriesChart sameSeriesRows).chart.labels ≠ sameSeriesChart.labels ∨
          (complete sameSeriesChart sameSeriesRows).chart.data ≠ sameSeriesChart.data) ↔
        sameSeriesRows ≠ []) := by
  decide!

/-- C5, amended: when the handler receives no rows it shows the notification and leaves the
chart, labels and values included, exactly as it was; when it receives at least one row it
shows no notification, binds the labels and values of the rows and redraws.  So labels or
values change only if the list of rows is non-empty, and then exactly when the series of the
rows differs from the one shown before. -/
theorem complete_empty_rejected (solarChart : Chart) (rows : List Row) :
    (rows = [] → (complete solarChart rows).alert = some emptyCsvMessage ∧
        (complete solarChart rows).chart = solarChart ∧
        (complete solarChart rows).chart.labels = solarChart.labels ∧
        (complete solarChart rows).chart.data = solarChart.data) ∧
      (rows ≠ [] → (complete solarChart rows).alert = none ∧
        (complete solarChart rows).chart.labels = rows.map (fun r => r.date) ∧
        (complete solarChart rows).chart.data
          = rows.map (fun r =>
              match r.production with
              | none => JsNumber.fin 0
              | some s => if s = "" then JsNumber.fin 0 else parseFloat s) ∧
        (complete solarChart rows).chart.updates = solarChart.updates + 1) ∧
      (((complete solarChart rows).chart.labels ≠ solarChart.labels ∨
          (complete solarChart rows).chart.data ≠ solarChart.data) → rows ≠ []) ∧
      (((complete solarChart rows).chart.labels ≠ solarChart.labels ∨
          (complete solarChart rows).chart.data ≠ solarChart.data) ↔
        rows ≠ [] ∧ (rows.map (fun r => r.date) ≠ solarChart.labels ∨
          rows.map (fun r =>
              match r.production with
              | none => JsNumber.fin 0
              | some s => if s = "" then JsNumber.fin 0 else parseFloat s)
            ≠ solarChart.data)) ∧
      ((complete solarChart rows).alert.isSome = true ↔ rows = []) := by
  have hdata : rows.map (fun r => parseFloat (productionOrZero r.production))
      = rows.map (fun r =>
          match r.production with
          | none => JsNumber.fin 0
          | some s => if s = "" then JsNumber.fin 0 else parseFloat s) :=
    List.map_congr_left (fun r _ => parseFloat_productionOrZero r.production)
  rw [← hdata]
  cases rows with
  | nil => simp [complete]
  | cons r rs => simp [complete]

/-- Witness for the amended C5: the default chart with no rows stays as it was, and with the
rows of the example it shows their labels. -/
theorem complete_empty_rejected_witness :
    ((complete defaultChart []).alert = some emptyCsvMessage ∧
        (complete defaultChart []).chart = defaultChart ∧
        (complete defaultChart []).chart.labels = defaultChart.labels ∧
        (complete defaultChart []).chart.data = defaultChart.data) ∧
      (complete defaultChart exampleRows).chart.labels = [some "d1", some "d2"] :=
  ⟨(complete_empty_rejected defaultChart []).1 rfl,
    ((complete_empty_rejected defaultChart exampleRows).2.1 (by decide)).2.1⟩

/-! ## Distance and demo position: the claims -/

/-- C6, failing on the code: line 83 takes the square root of `1 - a`, so as soon as the
value computed for `a` exceeds 1 the argument is negative, `Math.sqrt` gives `NaN` and
`getDistance` returns `NaN`, which is neither defined as a distance nor non-negative.  The
doubles of lines 76-82 give `a = 1.0000000000000002` (that is `1 + 2⁻⁵²`) at valid points
that are antipodal, while in exact arithmetic `a` stays within [0, 1] there. -/
theorem distanceOfTerm_nan_above_one (a : ℝ) (h : 1 < a) :
    distanceOfTerm a = none ∧
      ∀ lat1 lon1 lat2 lon2 : ℝ, lat1 ∈ Set.Icc (-90 : ℝ) 90 → lat2 ∈ Set.Icc (-90 : ℝ) 90 →
        haversineTerm lat1 lon1 lat2 lon2 ≠ a ∧
        distanceOfTerm (haversineTerm lat1 lon1 lat2 lon2)
          = some (getDistance lat1 lon1 lat2 lon2) := by
  refine ⟨?_, ?_⟩
  · unfold distanceOfTerm
    rw [if_pos (Or.inr (by linarith))]
  · intro lat1 lon1 lat2 lon2 h1 h2
    have hle := haversineTerm_le_one lon1 lon2 h1.1 h1.2 h2.1 h2.2
    refine ⟨by intro he; linarith, ?_⟩
    exact distanceOfTerm_haversineTerm lon1 lon2 h1 h2

/-- Witness for C6: the double next above 1, which line 82 yields at antipodal points. -/
theorem distanceOfTerm_nan_above_one_witness :
    (1 : ℝ) < 1 + 1 / 2 ^ 52 ∧ distanceOfTerm (1 + 1 / 2 ^ 52) = none :=
  ⟨by norm_num, (distanceOfTerm_nan_above_one (1 + 1 / 2 ^ 52) (by norm_num)).1⟩

/-- C7: over the reals `getDistance (0, 0, 0, 1)` is `6371 * pi / 180`, which is within
0.5 km of 111.19 km. -/
theorem getDistance_known_value :
    getDistance 0 0 0 1 = 6371 * Real.pi / 180 ∧ |getDistance 0 0 0 1 - 111.19| ≤ 0.5 := by
  have h : getDistance 0 0 0 1 = 6371 * Real.pi / 180 := by
    rw [getDistance_equator (by norm_num) (by norm_num)]; ring
  refine ⟨h, ?_⟩
  rw [h, abs_le]
  have h1 := Real.pi_gt_d2
  have h2 := Real.pi_lt_d2
  constructor <;> norm_num <;> linarith

/-- C8: `getDistance` gives the same value when the two points are exchanged. -/
theorem getDistance_symm (lat1 lon1 lat2 lon2 : ℝ) :
    getDistance lat1 lon1 lat2 lon2 = getDistance lat2 lon2 lat1 lon1 := by
  unfold getDistance
  rw [haversineTerm_symm lat1 lon1 lat2 lon2]

/-- C10: for a clock value `t ≥ 0` the fallback longitude lies in [-180, 180] and the
fallback latitude in [-20, 20]; the marker position that a failed tick sets is given by the
clock values alone, whatever the page was before. -/
theorem demo_position_valid (t : ℤ) (ht : 0 ≤ t) :
    (-180 ≤ demoLon t ∧ demoLon t ≤ 180) ∧ (-20 ≤ demoLat t ∧ demoLat t ≤ 20) ∧
      ∀ (p q : Page) (u : ℤ),
        (updateISS p (.failed t u)).page.issMarker = some (demoLat t, demoLon u) ∧
        (updateISS q (.failed t u)).page.issMarker = some (demoLat t, demoLon u) ∧
        (updateISS p (.failed t u)).page.issInfo
          = (updateISS q (.failed t u)).page.issInfo := by
  have hx : (0 : ℝ) ≤ (t : ℝ) / 100000 := by
    have : (0 : ℝ) ≤ (t : ℝ) := by exact_mod_cast ht
    positivity
  obtain ⟨h1, h2⟩ := jsRem_bounds hx (by norm_num : (0 : ℝ) < 360)
  have s1 := Real.neg_one_le_sin ((t : ℝ) / 30000)
  have s2 := Real.sin_le_one ((t : ℝ) / 30000)
  refine ⟨⟨?_, ?_⟩, ⟨?_, ?_⟩, ?_⟩
  · unfold demoLon; linarith
  · unfold demoLon; linarith
  · unfold demoLat; linarith
  · unfold demoLat; linarith
  · intro p q u
    exact ⟨rfl, rfl, rfl⟩

/-- Witness for C10: the clock value 1 700 000 000 000 (November 2023). -/
theorem demo_position_valid_witness :
    (0 : ℤ) ≤ 1700000000000 ∧
      ((-180 ≤ demoLon 1700000000000 ∧ demoLon 1700000000000 ≤ 180) ∧
        (-20 ≤ demoLat 1700000000000 ∧ demoLat 1700000000000 ≤ 20)) :=
  ⟨by decide, (demo_position_valid 1700000000000 (by decide)).1,
    (demo_position_valid 1700000000000 (by decide)).2.1⟩

end SpaceMission
